import Mathlib

/-!
Shallow embedding of the tool servers of the ai-portainer-dashboard repository:
the Grype / Snyk subprocess runners (src/tools/grype-mcp/server.py,
src/tools/snyk-mcp/server.py), the Kali allowlisted-command runner
(src/tools/kali-mcp/server.py) and the NVD CVE-lookup server
(src/tools/nvd-mcp/server.py).

Python strings are sequences of code points, so every Python string
operation (slicing, `len`, `strip`, regex character-class removal) is
modelled on `String.data : List Char`.  External effects (subprocess
execution, the outbound HTTP call) are modelled as oracles passed in as
arguments; a Python exception that escapes a tool function is modelled
with `Except`.
-/

namespace PortainerTools

/-! ### Python string primitives -/

/-- Python slice `s[:n]` (by code points). -/
def pyTake (n : Nat) (s : String) : String := String.mk (s.data.take n)

/-- Python slice `s[n:]` (by code points). -/
def pyDrop (n : Nat) (s : String) : String := String.mk (s.data.drop n)

/-- Python slice `s[-n:]`: the last `n` code points (the whole string when
shorter than `n`). -/
def sliceLast (n : Nat) (s : String) : String :=
  String.mk (s.data.drop (s.data.length - n))

/-- Python `len(s)`: the number of code points. -/
def pyLen (s : String) : Nat := s.data.length

/-- Whitespace for Python `str.strip()`: the ASCII whitespace characters
plus the further code points Python treats as str-whitespace that can occur
in this code base (U+001C–U+001F, U+0085, U+00A0). -/
def isPySpace (c : Char) : Bool :=
  c = ' ' || c = '\t' || c = '\n' || c = '\r' || c.val = 0x0b || c.val = 0x0c ||
    (0x1c ≤ c.val && c.val ≤ 0x1f) || c.val = 0x85 || c.val = 0xa0

/-- Python `s.strip()`: remove leading and trailing whitespace. -/
def pyStrip (s : String) : String :=
  String.mk (((s.data.dropWhile isPySpace).reverse.dropWhile isPySpace).reverse)

/-- Python `s.lower()` restricted to ASCII (the inputs compared in the code
are ASCII configuration tokens). -/
def pyLower (s : String) : String := String.mk (s.data.map Char.toLower)

/-- Python `s.upper()` restricted to ASCII (CVE identifiers are ASCII). -/
def pyUpper (s : String) : String := String.mk (s.data.map Char.toUpper)

/-- Python `s.startswith(pre)`. -/
def pyStartsWith (s pre : String) : Bool := pre.data.isPrefixOf s.data

/-! ### json.dumps on string-valued objects

Every `json.dumps` call in the four servers that a claim touches receives a
dict with string keys and string values, so the serializer is embedded for
exactly that shape, following CPython's `json.dumps` with its default
separators and `ensure_ascii=True`. -/

def quoteChar : Char := Char.ofNat 34

def backslashChar : Char := Char.ofNat 92

def lbraceChar : Char := Char.ofNat 123

def rbraceChar : Char := Char.ofNat 125

/-- Hexadecimal digit (lower case), as CPython prints in \uXXXX escapes. -/
def hexDigit (n : Nat) : Char :=
  if n < 10 then Char.ofNat (48 + n) else Char.ofNat (87 + n)

/-- A single \uXXXX escape for a code unit below 0x10000. -/
def uEscape (v : Nat) : List Char :=
  [backslashChar, 'u', hexDigit (v / 4096 % 16), hexDigit (v / 256 % 16),
    hexDigit (v / 16 % 16), hexDigit (v % 16)]

/-- CPython `json.dumps` escaping of one character (`ensure_ascii=True`):
the two-character escapes for quote, backslash and the common control
characters, \uXXXX (with a surrogate pair above 0xFFFF) for every other
control or non-ASCII character. -/
def jsonEscapeChar (c : Char) : List Char :=
  if c.val = 34 then [backslashChar, quoteChar]
  else if c.val = 92 then [backslashChar, backslashChar]
  else if c = '\n' then [backslashChar, 'n']
  else if c = '\t' then [backslashChar, 't']
  else if c = '\r' then [backslashChar, 'r']
  else if c.val = 8 then [backslashChar, 'b']
  else if c.val = 12 then [backslashChar, 'f']
  else if c.val < 0x20 || 0x7f ≤ c.val then
    if c.val < 0x10000 then uEscape c.val.toNat
    else uEscape (0xd800 + (c.val.toNat - 0x10000) / 0x400) ++
      uEscape (0xdc00 + (c.val.toNat - 0x10000) % 0x400)
  else [c]

/-- A JSON string literal: quote, escaped characters, quote. -/
def jsonQuote (s : String) : List Char :=
  quoteChar :: (s.data.map jsonEscapeChar).flatten ++ [quoteChar]

/-- One `"key": "value"` member (CPython default key separator). -/
def jsonMember (kv : String × String) : List Char :=
  jsonQuote kv.1 ++ ':' :: ' ' :: jsonQuote kv.2

/-- The members joined by the CPython default item separator. -/
def jsonMembers : List (String × String) → List Char
  | [] => []
  | [kv] => jsonMember kv
  | kv :: rest => jsonMember kv ++ ',' :: ' ' :: jsonMembers rest

/-- `json.dumps` of an insertion-ordered dict with string keys and values. -/
def json_dumps (fields : List (String × String)) : String :=
  String.mk (lbraceChar :: jsonMembers fields ++ [rbraceChar])

/-- A string that parses as a JSON object of string fields, i.e. lies in the
image of `json_dumps`. -/
def isJsonObjectString (s : String) : Prop := ∃ fields, s = json_dumps fields

/-- A JSON-object string that carries at least an `error` or a `message`
key, the normalized failure shape of the spec. -/
def jsonErrorOrMessage (s : String) : Prop :=
  ∃ fields, s = json_dumps fields ∧
    ("error" ∈ fields.map Prod.fst ∨ "message" ∈ fields.map Prod.fst)

/-! ### Subprocess model

`subprocess.run(cmd, capture_output=True, text=True, timeout=t, check=False)`
either completes with a return code and captured stdout/stderr, raises
`subprocess.TimeoutExpired`, or raises `FileNotFoundError` when the binary
does not exist.  An oracle maps the argument vector and the applied timeout
to the outcome of that one spawned process. -/

inductive ProcOutcome where
  | completed (returncode : Int) (stdout stderr : String)
  | timedOut
  | notFound
deriving DecidableEq

abbrev ProcOracle := List String → Int → ProcOutcome

/-- Python exceptions that can escape a tool function in this code base. -/
inductive PyExc where
  | timeoutExpired
  | fileNotFoundError
deriving DecidableEq

/-! ### grype-mcp/server.py -/

def SCAN_TIMEOUT : Int := 120

/-- `_run_grype` of src/tools/grype-mcp/server.py: run `["grype"] + args`
under `timeout`, accept exit codes 0 and 1, normalize every failure to a
JSON object.  The spawned process is the oracle `proc` applied to the
command vector and the timeout. -/
def run_grype (args : List String) (timeout : Int) (proc : ProcOracle) : String :=
  match proc ("grype" :: args) timeout with
  | .completed returncode stdout stderr =>
    if returncode ∉ ([0, 1] : List Int) then
      json_dumps [("error", "grype exited with code " ++ toString returncode),
        ("stderr", sliceLast 2000 stderr)]
    else if stdout ≠ "" then stdout
    else json_dumps [("message", "No output"), ("stderr", sliceLast 2000 stderr)]
  | .timedOut => json_dumps [("error", "Scan timed out after " ++ toString timeout ++ "s")]
  | .notFound => json_dumps [("error", "grype binary not found")]

/-! ### snyk-mcp/server.py -/

/-- `_run_snyk` of src/tools/snyk-mcp/server.py: run `["snyk"] + args`,
accept exit codes 0 and 1, normalize every failure to a JSON object. -/
def run_snyk (args : List String) (timeout : Int) (proc : ProcOracle) : String :=
  match proc ("snyk" :: args) timeout with
  | .completed returncode stdout stderr =>
    if returncode ∈ ([0, 1] : List Int) then
      if stdout ≠ "" then stdout
      else json_dumps [("message", "No output"), ("stderr", sliceLast 2000 stderr)]
    else
      json_dumps [("error", "snyk exited with code " ++ toString returncode),
        ("stderr", sliceLast 2000 stderr), ("stdout", sliceLast 2000 stdout)]
  | .timedOut => json_dumps [("error", "Scan timed out after " ++ toString timeout ++ "s")]
  | .notFound => json_dumps [("error", "snyk binary not found")]

/-! ### kali-mcp/server.py -/

def MAX_TIMEOUT : Int := 30

/-- The default `ALLOWED_COMMANDS`: the env default
`"whoami,id,uname,ip,df,free,ps,ss,ls,cat"` split on commas. -/
def defaultAllowedCommands : List String :=
  ["whoami", "id", "uname", "ip", "df", "free", "ps", "ss", "ls", "cat"]

/-- `ALLOW_ALL_COMMANDS`: whether `"all"` is among the configured commands
once each is stripped and lower-cased. -/
def allow_all_commands (allowed : List String) : Bool :=
  allowed.any (fun cmd => pyLower (pyStrip cmd) = "all")

/-- The timeout `run_allowed` applies to the spawned process:
`max(1, min(timeout_sec, MAX_TIMEOUT))`. -/
def kali_timeout (timeout_sec : Int) : Int := max 1 (min timeout_sec MAX_TIMEOUT)

/-- The allowlist guard of `run_allowed` (spec contract `is_allowed`): an
empty token sequence is never allowed; otherwise allowed when the allow-all
sentinel is configured or the first token is in the configured set. -/
def is_allowed (allowed : List String) (parts : List String) : Bool :=
  match parts with
  | [] => false
  | p0 :: _ => allow_all_commands allowed || allowed.contains p0

/-- `run_allowed` of src/tools/kali-mcp/server.py, taking the already
shell-tokenized command `parts = shlex.split(cmd)`.  The `subprocess.run`
call sits in no try/except, so a `TimeoutExpired` or `FileNotFoundError`
outcome escapes the function, modelled as `Except.error`. -/
def run_allowed (allowed : List String) (parts : List String) (timeout_sec : Int)
    (proc : ProcOracle) : Except PyExc String :=
  match parts with
  | [] => .ok "Empty command."
  | p0 :: _ =>
    if ¬ allow_all_commands allowed ∧ ¬ allowed.contains p0 then
      .ok ("Blocked. Allowed commands: " ++
        String.intercalate ", " (allowed.mergeSort (fun a b => decide (a ≤ b))))
    else
      match proc parts (kali_timeout timeout_sec) with
      | .completed returncode stdout stderr =>
        .ok ("exit=" ++ toString returncode ++ "\nstdout:\n" ++ sliceLast 6000 stdout ++
          "\nstderr:\n" ++ sliceLast 2000 stderr)
      | .timedOut => .error .timeoutExpired
      | .notFound => .error .fileNotFoundError

/-! ### nvd-mcp/server.py -/

def MAX_KEYWORD_LENGTH : Nat := 256

def MAX_CVE_ID_LENGTH : Nat := 30

/-- `CONTROL_CHAR_RE` character class: `[\x00-\x1f\x7f-\x9f]`. -/
def isControlChar (c : Char) : Bool :=
  c.val ≤ 0x1f || (0x7f ≤ c.val && c.val ≤ 0x9f)

/-- `CONTROL_CHAR_RE.sub("", s)`: remove every control character. -/
def removeControlChars (s : String) : String :=
  String.mk (s.data.filter (fun c => ¬ isControlChar c))

/-- `_sanitize_keyword`: strip whitespace, remove control characters,
truncate to `MAX_KEYWORD_LENGTH`. -/
def sanitize_keyword (keyword : String) : String :=
  pyTake MAX_KEYWORD_LENGTH (removeControlChars (pyStrip keyword))

/-- Outcome of `BearerTokenMiddleware.dispatch`: pass the request on to the
wrapped app, or answer immediately with a JSON error body and a status. -/
inductive AuthResult where
  | proceed
  | reject (status : Nat) (message : String)
deriving DecidableEq

/-- `BearerTokenMiddleware.dispatch`: with no configured secret every
request proceeds; otherwise a header that is absent (`headers.get` default
`""`) or lacks the `"Bearer "` shape is rejected 401, a wrong token
(`secrets.compare_digest`, modelled as string equality; its constant-time
execution is a timing property outside the embedding) is rejected 403, and
a matching token proceeds. -/
def bearer_dispatch (mcp_auth_token : String) (authHeader : Option String) : AuthResult :=
  if mcp_auth_token = "" then .proceed
  else
    let auth_header := authHeader.getD ""
    if ¬ pyStartsWith auth_header "Bearer " then
      .reject 401 "Missing or malformed Authorization header"
    else
      let provided_token := pyDrop 7 auth_header
      if provided_token ≠ mcp_auth_token then .reject 403 "Invalid bearer token"
      else .proceed

/-- What `get_cve` or `search_cves` does up to the `_nvd_query` call: either
return a JSON error early, or reach the external call with the given query
argument. -/
inductive QueryStep (α : Type) where
  | earlyReturn (response : String)
  | nvdQuery (arg : α)
deriving DecidableEq

/-- The sanitization `get_cve` applies to its argument:
`CONTROL_CHAR_RE.sub("", cve_id.strip()).upper()`. -/
def sanitize_cve_id (cve_id : String) : String :=
  pyUpper (removeControlChars (pyStrip cve_id))

/-- `get_cve` of src/tools/nvd-mcp/server.py up to the external call:
sanitize, reject over-long identifiers, reject identifiers that do not
start with `"CVE-"`, otherwise query the NVD API with the sanitized id. -/
def get_cve_pre (cve_id : String) : QueryStep String :=
  let c := sanitize_cve_id cve_id
  if MAX_CVE_ID_LENGTH < pyLen c then
    .earlyReturn (json_dumps [("error", "CVE ID too long")])
  else if ¬ pyStartsWith c "CVE-" then
    .earlyReturn (json_dumps [("error", "Invalid CVE ID format. Expected CVE-YYYY-NNNNN")])
  else .nvdQuery c

/-- The status-code handling of `get_cve` after the external call returns
`resp`: the two early returns for status 403 and for any other non-200
status (`none` means execution continues into the 200 body parsing). -/
def get_cve_status_fields (status_code : Nat) (text : String) :
    Option (List (String × String)) :=
  if status_code = 403 then
    some [("error", "Rate limited by NVD API. Set NVD_API_KEY for higher limits (50 req/30s).")]
  else if status_code ≠ 200 then
    some [("error", "NVD API returned HTTP " ++ toString status_code),
      ("body", pyTake 500 text)]
  else none

/-- `search_cves` of src/tools/nvd-mcp/server.py up to the external call:
sanitize the keyword, reject an empty result, clamp the requested count,
otherwise query with `keywordSearch` and `resultsPerPage`. -/
def search_cves_pre (keyword : String) (results : Int) : QueryStep (String × Int) :=
  let kw := sanitize_keyword keyword
  if kw = "" then
    .earlyReturn (json_dumps [("error", "Keyword must not be empty after sanitization")])
  else .nvdQuery (kw, max 1 (min results 50))

/-- The status-code handling of `search_cves` after the external call
(textually the same two early returns as in `get_cve`). -/
def search_cves_status_fields (status_code : Nat) (text : String) :
    Option (List (String × String)) :=
  if status_code = 403 then
    some [("error", "Rate limited by NVD API. Set NVD_API_KEY for higher limits (50 req/30s).")]
  else if status_code ≠ 200 then
    some [("error", "NVD API returned HTTP " ++ toString status_code),
      ("body", pyTake 500 text)]
  else none

set_option maxRecDepth 100000

/-! ### Claims -/

/-- C4: the command allowlist guard never allows the empty token sequence;
with the allow-all sentinel (case-insensitive "all", whitespace-stripped)
present in the configured set every non-empty command is allowed; otherwise
a command is allowed iff its first token is a member of the configured set;
under the default set `["whoami"]` is allowed and `["rm", "-rf", "/"]` is
blocked. -/
theorem c4_allowlist_guard :
    (∀ allowed : List String, is_allowed allowed [] = false) ∧
    (∀ allowed parts : List String, allow_all_commands allowed = true → parts ≠ [] →
      is_allowed allowed parts = true) ∧
    (∀ (allowed : List String) (p0 : String) (rest : List String),
      allow_all_commands allowed = false →
      is_allowed allowed (p0 :: rest) = allowed.contains p0) ∧
    is_allowed defaultAllowedCommands ["whoami"] = true ∧
    is_allowed defaultAllowedCommands ["rm", "-rf", "/"] = false := by
  refine ⟨fun allowed => rfl, ?_, ?_, by decide, by decide⟩
  · intro allowed parts hall hne
    cases parts with
    | nil => exact absurd rfl hne
    | cons p0 rest => simp [is_allowed, hall]
  · intro allowed p0 rest hall
    simp [is_allowed, hall]

/-- Witness for C4: the allow-all sentinel admits an arbitrary command, and
without it a first token outside the set is refused. -/
theorem c4_allowlist_guard_witness :
    is_allowed ["nmap", " ALL "] ["anything"] = true ∧
    is_allowed ["nmap"] ["tcpdump", "-i"] = false := by
  constructor
  · exact c4_allowlist_guard.2.1 ["nmap", " ALL "] ["anything"] (by decide) (by decide)
  · exact (c4_allowlist_guard.2.2.1 ["nmap"] "tcpdump" ["-i"] (by decide)).trans (by decide)

/-- C5: with the shared secret unset every request proceeds; with it set, a
missing or non-`Bearer` Authorization header is rejected 401, a wrong token
is rejected 403, and the matching token proceeds to dispatch. -/
theorem c5_bearer_auth_gate (secret : String) (header : Option String) :
    (secret = "" → bearer_dispatch secret header = .proceed) ∧
    (secret ≠ "" → pyStartsWith (header.getD "") "Bearer " = false →
      bearer_dispatch secret header =
        .reject 401 "Missing or malformed Authorization header") ∧
    (secret ≠ "" → pyStartsWith (header.getD "") "Bearer " = true →
      pyDrop 7 (header.getD "") ≠ secret →
      bearer_dispatch secret header = .reject 403 "Invalid bearer token") ∧
    (secret ≠ "" → pyStartsWith (header.getD "") "Bearer " = true →
      pyDrop 7 (header.getD "") = secret →
      bearer_dispatch secret header = .proceed) := by
  refine ⟨fun h => by simp [bearer_dispatch, h], ?_, ?_, ?_⟩
  · intro hs hpre
    simp [bearer_dispatch, hs, hpre]
  · intro hs hpre hne
    simp [bearer_dispatch, hs, hpre, hne]
  · intro hs hpre heq
    simp [bearer_dispatch, hs, hpre, heq]

/-- Witness for C5: the spec's four concrete cases with secret `"s3cret"`. -/
theorem c5_bearer_auth_gate_witness :
    bearer_dispatch "" none = .proceed ∧
    bearer_dispatch "s3cret" none =
      .reject 401 "Missing or malformed Authorization header" ∧
    bearer_dispatch "s3cret" (some "Bearer wrong") =
      .reject 403 "Invalid bearer token" ∧
    bearer_dispatch "s3cret" (some "Bearer s3cret") = .proceed :=
  ⟨(c5_bearer_auth_gate "" none).1 rfl,
   (c5_bearer_auth_gate "s3cret" none).2.1 (by decide) (by decide),
   (c5_bearer_auth_gate "s3cret" (some "Bearer wrong")).2.2.1
     (by decide) (by decide) (by decide),
   (c5_bearer_auth_gate "s3cret" (some "Bearer s3cret")).2.2.2
     (by decide) (by decide) (by decide)⟩

/-- C9: whenever `search_cves` reaches the external call, the result count
it sends upstream is `max 1 (min results 50)`; a request of 100 is clamped
to 50 and a request of 0 to 1. -/
theorem c9_results_clamp :
    (∀ (keyword : String) (results : Int) (arg : String × Int),
      search_cves_pre keyword results = .nvdQuery arg →
      arg.2 = max 1 (min results 50)) ∧
    search_cves_pre "apache" 100 = .nvdQuery ("apache", 50) ∧
    search_cves_pre "apache" 0 = .nvdQuery ("apache", 1) := by
  refine ⟨?_, by decide, by decide⟩
  intro keyword results arg h
  by_cases hkw : sanitize_keyword keyword = ""
  · simp [search_cves_pre, hkw] at h
  · simp [search_cves_pre, hkw] at h
    subst h
    rfl

/-- Witness for C9: an in-range request of 7 is sent upstream unchanged. -/
theorem c9_results_clamp_witness :
    search_cves_pre "nginx" 7 = QueryStep.nvdQuery ("nginx", 7) ∧
    (7 : Int) = max 1 (min 7 50) :=
  ⟨by decide, c9_results_clamp.1 "nginx" 7 ("nginx", 7) (by decide)⟩

/-- C10: the timeout applied to the process spawned by `run_allowed` is
`max 1 (min timeout_sec 30)`, always between 1 and 30; the runner's result
depends on the spawned process only at that clamped timeout, never at the
caller's raw request. -/
theorem c10_kali_timeout_clamp :
    (∀ timeout_sec : Int, kali_timeout timeout_sec = max 1 (min timeout_sec 30) ∧
      1 ≤ kali_timeout timeout_sec ∧ kali_timeout timeout_sec ≤ 30) ∧
    kali_timeout 0 = 1 ∧ kali_timeout (-5) = 1 ∧ kali_timeout 100 = 30 ∧
    (∀ (allowed parts : List String) (timeout_sec : Int) (proc proc' : ProcOracle),
      proc parts (kali_timeout timeout_sec) = proc' parts (kali_timeout timeout_sec) →
      run_allowed allowed parts timeout_sec proc =
        run_allowed allowed parts timeout_sec proc') := by
  refine ⟨?_, by decide, by decide, by decide, ?_⟩
  · intro ts
    refine ⟨rfl, ?_, ?_⟩ <;> (unfold kali_timeout MAX_TIMEOUT; omega)
  · intro allowed parts ts proc proc' h
    cases parts with
    | nil => rfl
    | cons p0 rest =>
      simp only [run_allowed]
      split
      · rfl
      · rw [h]

/-- Witness for C10: with a requested timeout of 99, an oracle that would
time out at 99 seconds is indistinguishable from one that completes,
because the process only ever sees the clamped timeout 30. -/
theorem c10_kali_timeout_clamp_witness :
    run_allowed defaultAllowedCommands ["id"] 99
        (fun _ t => if t = 99 then .timedOut else .completed 0 "x" "") =
      run_allowed defaultAllowedCommands ["id"] 99 (fun _ _ => .completed 0 "x" "") :=
  c10_kali_timeout_clamp.2.2.2.2 defaultAllowedCommands ["id"] 99
    (fun _ t => if t = 99 then .timedOut else .completed 0 "x" "")
    (fun _ _ => .completed 0 "x" "") (by decide)

/-- C6 counterexample: a raw string of 257 characters (two control
characters followed by 255 letters) exceeds `MAX_KEYWORD_LENGTH = 256`, yet
its sanitized form has length 255, not 256 — stripping and
control-character removal can leave fewer than `max_len` characters to
truncate. -/
theorem c6_sanitizer_length_counterexample :
    pyLen (String.mk (List.replicate 2 (Char.ofNat 1) ++ List.replicate 255 'a')) = 257 ∧
    MAX_KEYWORD_LENGTH = 256 ∧
    pyLen (sanitize_keyword
      (String.mk (List.replicate 2 (Char.ofNat 1) ++ List.replicate 255 'a'))) = 255 :=
  ⟨by decide, rfl, by decide⟩

/-- C6 amended: the sanitized output's length is the minimum of `max_len`
and the length of the stripped, control-character-free form of the input;
in particular it is exactly `max_len` whenever that form is at least
`max_len` long. -/
theorem c6_sanitizer_length_amended (raw : String) :
    pyLen (sanitize_keyword raw) =
      min MAX_KEYWORD_LENGTH (pyLen (removeControlChars (pyStrip raw))) ∧
    (MAX_KEYWORD_LENGTH ≤ pyLen (removeControlChars (pyStrip raw)) →
      pyLen (sanitize_keyword raw) = MAX_KEYWORD_LENGTH) := by
  have hlen : pyLen (sanitize_keyword raw) =
      min MAX_KEYWORD_LENGTH (pyLen (removeControlChars (pyStrip raw))) := by
    unfold sanitize_keyword pyTake pyLen
    exact List.length_take _ _
  exact ⟨hlen, fun h => by rw [hlen]; omega⟩

/-- Witness for C6 amended: 300 plain letters sanitize to exactly 256
characters. -/
theorem c6_sanitizer_length_amended_witness :
    pyLen (sanitize_keyword (String.mk (List.replicate 300 'a'))) = MAX_KEYWORD_LENGTH :=
  (c6_sanitizer_length_amended (String.mk (List.replicate 300 'a'))).2 (by decide)

/-- C7: in both CVE lookups, upstream status 403 yields the fixed
rate-limit error object, any other non-200 status yields the generic error
carrying the status code and the first 500 characters of the body, and the
two shapes are distinct. -/
theorem c7_nvd_status_errors (status_code : Nat) (text other : String) :
    (get_cve_status_fields 403 text = some [("error",
      "Rate limited by NVD API. Set NVD_API_KEY for higher limits (50 req/30s).")]) ∧
    (search_cves_status_fields 403 text = some [("error",
      "Rate limited by NVD API. Set NVD_API_KEY for higher limits (50 req/30s).")]) ∧
    (status_code ≠ 403 → status_code ≠ 200 →
      get_cve_status_fields status_code text =
        some [("error", "NVD API returned HTTP " ++ toString status_code),
          ("body", pyTake 500 text)] ∧
      search_cves_status_fields status_code text =
        some [("error", "NVD API returned HTTP " ++ toString status_code),
          ("body", pyTake 500 text)] ∧
      pyLen (pyTake 500 text) ≤ 500 ∧
      get_cve_status_fields 403 other ≠ get_cve_status_fields status_code text ∧
      search_cves_status_fields 403 other ≠ search_cves_status_fields status_code text) := by
  refine ⟨by simp [get_cve_status_fields], by simp [search_cves_status_fields], ?_⟩
  intro h403 h200
  have hg : get_cve_status_fields status_code text =
      some [("error", "NVD API returned HTTP " ++ toString status_code),
        ("body", pyTake 500 text)] := by
    simp [get_cve_status_fields, h403, h200]
  have hs : search_cves_status_fields status_code text =
      some [("error", "NVD API returned HTTP " ++ toString status_code),
        ("body", pyTake 500 text)] := by
    simp [search_cves_status_fields, h403, h200]
  refine ⟨hg, hs, ?_, ?_, ?_⟩
  · have := List.length_take 500 text.data
    unfold pyLen pyTake
    simp only [List.length_take]
    omega
  · rw [hg]; simp [get_cve_status_fields]
  · rw [hs]; simp [search_cves_status_fields]

/-- Witness for C7: upstream status 404 with body `"oops"` produces the
generic error, different from the 403 rate-limit error. -/
theorem c7_nvd_status_errors_witness :
    get_cve_status_fields 404 "oops" =
      some [("error", "NVD API returned HTTP 404"), ("body", "oops")] ∧
    get_cve_status_fields 403 "" ≠ get_cve_status_fields 404 "oops" := by
  have h := (c7_nvd_status_errors 404 "oops" "").2.2 (by decide) (by decide)
  exact ⟨h.1.trans (by decide), h.2.2.2.1⟩

/-- C8 counterexample: 31 letters sanitize to themselves, do not start with
`"CVE-"`, and are rejected with the `"CVE ID too long"` error — not with
the invalid-format error the claim promises for every sanitized input
lacking the `CVE-` prefix. -/
theorem c8_cve_format_counterexample :
    pyStartsWith (sanitize_cve_id "XXXXXXXXXXXXXXXXXXXXXXXXXXXXXXX") "CVE-" = false ∧
    get_cve_pre "XXXXXXXXXXXXXXXXXXXXXXXXXXXXXXX" =
      QueryStep.earlyReturn (json_dumps [("error", "CVE ID too long")]) ∧
    json_dumps [("error", "CVE ID too long")] ≠
      json_dumps [("error", "Invalid CVE ID format. Expected CVE-YYYY-NNNNN")] :=
  ⟨by decide, by decide, by decide⟩

/-- C8 amended: `"  cve-2024-1234  "` sanitizes to `"CVE-2024-1234"` and is
accepted; every input whose sanitized form does not start with `"CVE-"` is
rejected before the external call — with the too-long error when the
sanitized length exceeds 30, otherwise with the invalid-format error — and
a sanitized input within the length bound starting with `"CVE-"` reaches
the external call. -/
theorem c8_cve_format_amended :
    get_cve_pre "  cve-2024-1234  " = QueryStep.nvdQuery "CVE-2024-1234" ∧
    get_cve_pre "not-a-cve" = QueryStep.earlyReturn
      (json_dumps [("error", "Invalid CVE ID format. Expected CVE-YYYY-NNNNN")]) ∧
    (∀ cve_id : String,
      (MAX_CVE_ID_LENGTH < pyLen (sanitize_cve_id cve_id) →
        get_cve_pre cve_id =
          QueryStep.earlyReturn (json_dumps [("error", "CVE ID too long")])) ∧
      (pyLen (sanitize_cve_id cve_id) ≤ MAX_CVE_ID_LENGTH →
        pyStartsWith (sanitize_cve_id cve_id) "CVE-" = false →
        get_cve_pre cve_id = QueryStep.earlyReturn
          (json_dumps [("error", "Invalid CVE ID format. Expected CVE-YYYY-NNNNN")])) ∧
      (pyLen (sanitize_cve_id cve_id) ≤ MAX_CVE_ID_LENGTH →
        pyStartsWith (sanitize_cve_id cve_id) "CVE-" = true →
        get_cve_pre cve_id = QueryStep.nvdQuery (sanitize_cve_id cve_id))) := by
  refine ⟨by decide, by decide, ?_⟩
  intro cve_id
  refine ⟨?_, ?_, ?_⟩
  · intro h
    simp only [get_cve_pre]
    rw [if_pos h]
  · intro h1 h2
    simp only [get_cve_pre]
    rw [if_neg (by omega), if_pos (by simp [h2])]
  · intro h1 h2
    simp only [get_cve_pre]
    rw [if_neg (by omega), if_neg (by simp [h2])]

/-- Witness for C8 amended: 33 letters are rejected with the too-long
error, and a short lower-case identifier is sanitized and queried. -/
theorem c8_cve_format_amended_witness :
    get_cve_pre "zzzzzzzzzzzzzzzzzzzzzzzzzzzzzzzzz" =
      QueryStep.earlyReturn (json_dumps [("error", "CVE ID too long")]) ∧
    get_cve_pre "cve-1" = QueryStep.nvdQuery (sanitize_cve_id "cve-1") :=
  ⟨(c8_cve_format_amended.2.2 "zzzzzzzzzzzzzzzzzzzzzzzzzzzzzzzzz").1 (by decide),
   (c8_cve_format_amended.2.2 "cve-1").2.2 (by decide) (by decide)⟩

/-- C1 counterexample: the kali tool `run_allowed`, on the empty command,
returns the plain-text string `"Empty command."`, which is not a
JSON-object string — so not every tool returns JSON-shaped output. -/
theorem c1_json_shape_counterexample :
    run_allowed defaultAllowedCommands [] 10 (fun _ _ => .completed 0 "" "") =
      Except.ok "Empty command." ∧
    ¬ isJsonObjectString "Empty command." := by
  refine ⟨rfl, ?_⟩
  rintro ⟨fields, h⟩
  have h2 : ("Empty command.").data.head? = (json_dumps fields).data.head? := by rw [h]
  simp [json_dumps] at h2
  exact absurd h2 (by decide)

/-- C1 amended: the grype and snyk runners return, on every outcome,
exactly one string — the process's stdout when a success-like exit code
(0 or 1) produced output, otherwise a JSON object carrying an `error` or
`message` key; the kali runner instead returns plain-text strings and does
not catch process exceptions. -/
theorem c1_json_shape_amended (args : List String) (timeout : Int) (proc : ProcOracle) :
    ((∃ returncode stdout stderr,
        proc ("grype" :: args) timeout = .completed returncode stdout stderr ∧
        (returncode = 0 ∨ returncode = 1) ∧ stdout ≠ "" ∧
        run_grype args timeout proc = stdout) ∨
      jsonErrorOrMessage (run_grype args timeout proc)) ∧
    ((∃ returncode stdout stderr,
        proc ("snyk" :: args) timeout = .completed returncode stdout stderr ∧
        (returncode = 0 ∨ returncode = 1) ∧ stdout ≠ "" ∧
        run_snyk args timeout proc = stdout) ∨
      jsonErrorOrMessage (run_snyk args timeout proc)) := by
  constructor
  · rcases hp : proc ("grype" :: args) timeout with ⟨rc, out, err⟩ | _ | _
    · by_cases hrc : rc ∈ ([0, 1] : List Int)
      · by_cases hout : out = ""
        · exact Or.inr ⟨[("message", "No output"), ("stderr", sliceLast 2000 err)],
            by simp [run_grype, hp, hrc, hout], by simp⟩
        · exact Or.inl ⟨rc, out, err, rfl, by simpa using hrc, hout,
            by simp [run_grype, hp, hrc, hout]⟩
      · exact Or.inr ⟨[("error", "grype exited with code " ++ toString rc),
          ("stderr", sliceLast 2000 err)], by simp [run_grype, hp, hrc], by simp⟩
    · exact Or.inr ⟨[("error", "Scan timed out after " ++ toString timeout ++ "s")],
        by simp [run_grype, hp], by simp⟩
    · exact Or.inr ⟨[("error", "grype binary not found")],
        by simp [run_grype, hp], by simp⟩
  · rcases hp : proc ("snyk" :: args) timeout with ⟨rc, out, err⟩ | _ | _
    · by_cases hrc : rc ∈ ([0, 1] : List Int)
      · by_cases hout : out = ""
        · exact Or.inr ⟨[("message", "No output"), ("stderr", sliceLast 2000 err)],
            by simp [run_snyk, hp, hrc, hout], by simp⟩
        · exact Or.inl ⟨rc, out, err, rfl, by simpa using hrc, hout,
            by simp [run_snyk, hp, hrc, hout]⟩
      · exact Or.inr ⟨[("error", "snyk exited with code " ++ toString rc),
          ("stderr", sliceLast 2000 err), ("stdout", sliceLast 2000 out)],
          by simp [run_snyk, hp, hrc], by simp⟩
    · exact Or.inr ⟨[("error", "Scan timed out after " ++ toString timeout ++ "s")],
        by simp [run_snyk, hp], by simp⟩
    · exact Or.inr ⟨[("error", "snyk binary not found")],
        by simp [run_snyk, hp], by simp⟩

/-- C2 counterexample: when the binary does not exist, the kali tool
`run_allowed` lets the `FileNotFoundError` escape instead of normalizing it
to a "not found" response. -/
theorem c2_not_found_counterexample :
    run_allowed defaultAllowedCommands ["whoami"] 10 (fun _ _ => .notFound) =
      Except.error PyExc.fileNotFoundError := rfl

/-- C2 amended: the grype and snyk runners normalize a missing binary to a
JSON `error` response with a "not found" message; the kali runner lets the
`FileNotFoundError` propagate whenever its guard admits the command. -/
theorem c2_not_found_amended (args parts : List String) (timeout timeout_sec : Int)
    (proc kproc : ProcOracle) :
    (proc ("grype" :: args) timeout = .notFound →
      run_grype args timeout proc = json_dumps [("error", "grype binary not found")]) ∧
    (proc ("snyk" :: args) timeout = .notFound →
      run_snyk args timeout proc = json_dumps [("error", "snyk binary not found")]) ∧
    (is_allowed defaultAllowedCommands parts = true →
      kproc parts (kali_timeout timeout_sec) = .notFound →
      run_allowed defaultAllowedCommands parts timeout_sec kproc =
        Except.error PyExc.fileNotFoundError) := by
  refine ⟨fun h => by simp [run_grype, h], fun h => by simp [run_snyk, h], ?_⟩
  intro hallow hproc
  cases parts with
  | nil => simp [is_allowed] at hallow
  | cons p0 rest =>
    have hcond : ¬ (¬ allow_all_commands defaultAllowedCommands ∧
        ¬ defaultAllowedCommands.contains p0) := by
      simp only [is_allowed, Bool.or_eq_true] at hallow
      rcases hallow with h | h
      · exact fun hc => hc.1 h
      · exact fun hc => hc.2 h
    simp only [run_allowed]
    rw [if_neg hcond, hproc]

/-- Witness for C2 amended: concrete missing-binary outcomes for all three
runners. -/
theorem c2_not_found_amended_witness :
    run_grype ["db", "status", "-o", "json"] 30 (fun _ _ => .notFound) =
      json_dumps [("error", "grype binary not found")] ∧
    run_snyk ["version"] 10 (fun _ _ => .notFound) =
      json_dumps [("error", "snyk binary not found")] ∧
    run_allowed defaultAllowedCommands ["ls"] 10 (fun _ _ => .notFound) =
      Except.error PyExc.fileNotFoundError :=
  ⟨(c2_not_found_amended ["db", "status", "-o", "json"] [] 30 0
      (fun _ _ => .notFound) (fun _ _ => .notFound)).1 rfl,
   (c2_not_found_amended ["version"] [] 10 0
      (fun _ _ => .notFound) (fun _ _ => .notFound)).2.1 rfl,
   (c2_not_found_amended [] ["ls"] 0 10
      (fun _ _ => .notFound) (fun _ _ => .notFound)).2.2 (by decide) rfl⟩

/-- C3 counterexample: when the process exceeds its timeout, the kali tool
`run_allowed` lets the `TimeoutExpired` exception escape instead of
returning a normalized error. -/
theorem c3_timeout_counterexample :
    run_allowed defaultAllowedCommands ["whoami"] 10 (fun _ _ => .timedOut) =
      Except.error PyExc.timeoutExpired := rfl

/-- C3 amended: the grype and snyk runners normalize a timeout to a JSON
`error` response naming the timeout duration; the kali runner lets the
`TimeoutExpired` propagate whenever its guard admits the command. -/
theorem c3_timeout_amended (args parts : List String) (timeout timeout_sec : Int)
    (proc kproc : ProcOracle) :
    (proc ("grype" :: args) timeout = .timedOut →
      run_grype args timeout proc =
        json_dumps [("error", "Scan timed out after " ++ toString timeout ++ "s")]) ∧
    (proc ("snyk" :: args) timeout = .timedOut →
      run_snyk args timeout proc =
        json_dumps [("error", "Scan timed out after " ++ toString timeout ++ "s")]) ∧
    (is_allowed defaultAllowedCommands parts = true →
      kproc parts (kali_timeout timeout_sec) = .timedOut →
      run_allowed defaultAllowedCommands parts timeout_sec kproc =
        Except.error PyExc.timeoutExpired) := by
  refine ⟨fun h => by simp [run_grype, h], fun h => by simp [run_snyk, h], ?_⟩
  intro hallow hproc
  cases parts with
  | nil => simp [is_allowed] at hallow
  | cons p0 rest =>
    have hcond : ¬ (¬ allow_all_commands defaultAllowedCommands ∧
        ¬ defaultAllowedCommands.contains p0) := by
      simp only [is_allowed, Bool.or_eq_true] at hallow
      rcases hallow with h | h
      · exact fun hc => hc.1 h
      · exact fun hc => hc.2 h
    simp only [run_allowed]
    rw [if_neg hcond, hproc]

/-- Witness for C3 amended: concrete timeout outcomes for all three
runners, with the duration visible in the normalized message. -/
theorem c3_timeout_amended_witness :
    run_grype ["nginx:latest", "-o", "json"] 120 (fun _ _ => .timedOut) =
      json_dumps [("error", "Scan timed out after 120s")] ∧
    run_snyk ["version"] 10 (fun _ _ => .timedOut) =
      json_dumps [("error", "Scan timed out after 10s")] ∧
    run_allowed defaultAllowedCommands ["cat"] 5 (fun _ _ => .timedOut) =
      Except.error PyExc.timeoutExpired :=
  ⟨((c3_timeout_amended ["nginx:latest", "-o", "json"] [] 120 0
      (fun _ _ => .timedOut) (fun _ _ => .timedOut)).1 rfl).trans (by decide),
   ((c3_timeout_amended ["version"] [] 10 0
      (fun _ _ => .timedOut) (fun _ _ => .timedOut)).2.1 rfl).trans (by decide),
   (c3_timeout_amended [] ["cat"] 0 5
      (fun _ _ => .timedOut) (fun _ _ => .timedOut)).2.2 (by decide) rfl⟩

end PortainerTools
